import Mathlib

/-!
Shallow embedding of the health-scoring and alerting logic of the
customer-success copilot repository, together with theorems checking the
natural-language specification against it.

Sources embedded here:
* the rule-based health scoring engine and alert generator of the product
  requirements document (`calculate_health_score`, `generate_alerts`);
* the frontend risk classifier and helpers
  (`getRiskLevel` in `AnalyticsPage.tsx`, `getHealthColor` in `api.ts`);
* the dashboard health-distribution bands and the at-risk customer list
  (`healthDistribution`, `criticalCustomers` in the dashboard pages);
* the alert filtering of `AlertsPage.tsx` (`filteredAlerts`) and the
  severity taxonomy of `api.ts`;
* the alert/urgency generation pseudocode of `docs/architecture/README.md`
  (`generate_alert`);
* the trend analyzer, which exists only in the backend that is not part of
  the source tree; it is modelled from the specification where needed.

Scores are embedded as rationals (`ℚ`); the decimal literals of the source
appear verbatim.  Counts and day counts are natural numbers.
-/

namespace Engine

/-- Customer record of the prototype engine: the fields read by
`calculate_health_score` and `generate_alerts`. -/
structure Customer where
  name : String
  usage_score : ℚ
  support_tickets : ℕ
  last_login_days : ℕ
  health_score : ℚ

/-- Health scoring rule of the engine: start from 1.0, subtract a usage
penalty (0.4 below 0.3, 0.2 below 0.6), a support-ticket penalty (0.3 above
5 tickets, 0.1 above 2) and a login-recency penalty (0.4 beyond 30 days,
0.2 beyond 7), then floor at 0. -/
def calculate_health_score (customer : Customer) : ℚ :=
  max 0 (1
    - (if customer.usage_score < 0.3 then 0.4
       else if customer.usage_score < 0.6 then 0.2 else 0)
    - (if customer.support_tickets > 5 then 0.3
       else if customer.support_tickets > 2 then 0.1 else 0)
    - (if customer.last_login_days > 30 then 0.4
       else if customer.last_login_days > 7 then 0.2 else 0))

/-- Alert record of the prototype engine: type, severity, message and the
suggested actions, all strings as in the source. -/
structure Alert where
  type : String
  severity : String
  message : String
  actions : List String
deriving DecidableEq

/-- Alert generation rules of the engine: a `churn_risk` alert of severity
`critical` when the stored health score is below 0.3, and an
`engagement_risk` alert of severity `medium` when the last login is more
than 14 days ago. -/
def generate_alerts (customer : Customer) : List Alert :=
  (if customer.health_score < 0.3 then
    [⟨"churn_risk", "critical",
      customer.name ++ " has very low health score",
      ["Schedule urgent call", "Send retention offer"]⟩]
   else []) ++
  (if customer.last_login_days > 14 then
    [⟨"engagement_risk", "medium",
      customer.name ++ " hasn't logged in for " ++
        toString customer.last_login_days ++ " days",
      ["Send check-in email", "Share new feature update"]⟩]
   else [])

end Engine

namespace Api

/-- Severity values of the `Alert` interface of `api.ts`:
`'critical' | 'medium' | 'low'`. -/
def severityValues : List String := ["critical", "medium", "low"]

/-- Health color bands of `getHealthColor` in `api.ts`. -/
def getHealthColor (score : ℚ) : String :=
  if score ≥ 0.8 then "#4caf50"
  else if score ≥ 0.6 then "#ff9800"
  else if score ≥ 0.3 then "#f44336"
  else "#d32f2f"

/-- Urgency colors of `getUrgencyColor` in `api.ts`: the urgency values of
an `ActionRecommendation` are `immediate`, `within_24h`, `within_week`. -/
def getUrgencyColor (urgency : String) : String :=
  if urgency = "immediate" then "#f44336"
  else if urgency = "within_24h" then "#ff9800"
  else if urgency = "within_week" then "#2196f3"
  else "#757575"

end Api

namespace Analytics

/-- Result of `getRiskLevel` in `AnalyticsPage.tsx`: a label and a color. -/
structure RiskLevel where
  label : String
  color : String
deriving DecidableEq

/-- Risk classifier of `AnalyticsPage.tsx`: score at least 0.8 is
`Excellent`, at least 0.6 is `Good`, at least 0.3 is `At Risk`, anything
lower is `Critical`. -/
def getRiskLevel (score : ℚ) : RiskLevel :=
  if score ≥ 0.8 then ⟨"Excellent", "green"⟩
  else if score ≥ 0.6 then ⟨"Good", "blue"⟩
  else if score ≥ 0.3 then ⟨"At Risk", "orange"⟩
  else ⟨"Critical", "red"⟩

end Analytics

namespace Dashboard

/-- Customer record of the frontend `api.ts` `Customer` interface
(optional display fields carried as options). -/
structure Customer where
  id : ℕ
  name : String
  mrr : ℚ
  usage_score : ℚ
  support_tickets : ℕ
  last_login_days : ℕ
  contract_date : String
  health_score : ℚ
  customer_type : Option String := none
  payment_status : Option String := none
  engagement_score : Option ℚ := none
  onboarding_completed : Option Bool := none
  nps_score : Option ℚ := none
  customer_label : Option String := none

/-- Excellent band of the dashboard health distribution: score at least 0.8. -/
def excellentBand (s : ℚ) : Bool := decide (s ≥ 0.8)

/-- Good band of the dashboard health distribution: score in [0.6, 0.8). -/
def goodBand (s : ℚ) : Bool := decide (s ≥ 0.6 ∧ s < 0.8)

/-- At-risk band of the dashboard health distribution: score in [0.3, 0.6). -/
def atRiskBand (s : ℚ) : Bool := decide (s ≥ 0.3 ∧ s < 0.6)

/-- Critical band of the dashboard health distribution: score below 0.3. -/
def criticalBand (s : ℚ) : Bool := decide (s < 0.3)

/-- Health distribution of the analytics dashboard: per-band customer
counts, with the band predicates of the source filters. -/
def healthDistribution (customers : List Customer) : List (String × ℕ) :=
  [("Excellent (80-100%)",
      (customers.filter (fun c => excellentBand c.health_score)).length),
   ("Good (60-80%)",
      (customers.filter (fun c => goodBand c.health_score)).length),
   ("At Risk (30-60%)",
      (customers.filter (fun c => atRiskBand c.health_score)).length),
   ("Critical (<30%)",
      (customers.filter (fun c => criticalBand c.health_score)).length)]

/-- Which of the four dashboard bands a score matches. -/
def healthBandMatches (s : ℚ) : List Bool :=
  [excellentBand s, goodBand s, atRiskBand s, criticalBand s]

/-- High-risk selection of the dashboard (`AtRiskCustomers` component):
customers with health score below 0.3, sorted ascending by health score,
first five taken. -/
def criticalCustomers (customers : List Customer) : List Customer :=
  ((customers.filter (fun c => decide (c.health_score < 0.3))).mergeSort
      (fun a b => decide (a.health_score ≤ b.health_score))).take 5

end Dashboard

namespace AlertsUI

/-- Alert record of the `api.ts` `Alert` interface, as consumed by
`AlertsPage.tsx`.  Severity is a string as in the source union type. -/
structure Alert where
  customer_id : ℕ
  customer_name : String
  type : String
  severity : String
  message : String
  actions : List String
  created_at : String
deriving DecidableEq

/-- Case folding of a character list, modelling the ASCII behaviour of the
JavaScript `toLowerCase` used by the page. -/
def lowerChars (cs : List Char) : List Char := cs.map Char.toLower

/-- Case folding of a string (JavaScript `toLowerCase`). -/
def strToLower (s : String) : String := String.mk (lowerChars s.data)

/-- Substring test on character lists: `includesAux pat hay` holds when
`pat` occurs contiguously inside `hay`. -/
def includesAux (pat : List Char) : List Char → Bool
  | [] => pat.isEmpty
  | c :: rest => List.isPrefixOf pat (c :: rest) || includesAux pat rest

/-- JavaScript `String.prototype.includes`: substring containment. -/
def strIncludes (hay pat : String) : Bool := includesAux pat.data hay.data

/-- Alert filtering of `AlertsPage.tsx`: an alert is kept when the search
text occurs in its customer name, message or type (case folded), its
severity matches the severity filter (or the filter is `all`), and its type
matches the type filter (or the filter is `all`). -/
def filteredAlerts (searchText filterSeverity filterType : String)
    (alerts : List Alert) : List Alert :=
  alerts.filter fun alert =>
    (strIncludes (strToLower alert.customer_name) (strToLower searchText) ||
     strIncludes (strToLower alert.message) (strToLower searchText) ||
     strIncludes (strToLower alert.type) (strToLower searchText)) &&
    (filterSeverity == "all" || alert.severity == filterSeverity) &&
    (filterType == "all" || alert.type == filterType)

/-- Severity ordering used by the severity column sorter of
`AlertsPage.tsx`: `critical` ranks 3, `medium` 2, `low` 1; any other
severity has no rank (the source object holds only these three keys). -/
def severityOrder (severity : String) : Option ℕ :=
  if severity = "critical" then some 3
  else if severity = "medium" then some 2
  else if severity = "low" then some 1
  else none

end AlertsUI

namespace ArchDocs

/-- Alert generation pseudocode of `docs/architecture/README.md`: a risk
score above 0.8 yields severity `critical` with urgency `immediate`, above
0.6 severity `high` with urgency `within_24h`, above 0.4 severity `medium`
with urgency `within_week`; the source assigns nothing below that, which is
embedded as `none`. -/
def generate_alert (risk_score : ℚ) : Option (String × String) :=
  if risk_score > 0.8 then some ("critical", "immediate")
  else if risk_score > 0.6 then some ("high", "within_24h")
  else if risk_score > 0.4 then some ("medium", "within_week")
  else none

/-- Urgency mapping stated by the specification for comparison with the
source: severity `critical` maps to urgency `immediate`, `high` to
`within_24h`, every other severity to `within_week`. -/
def urgencyFromSeverity (severity : String) : String :=
  if severity = "critical" then "immediate"
  else if severity = "high" then "within_24h"
  else "within_week"

end ArchDocs

namespace SpecModel

/-- Modelled from the spec: the Trend Analyzer lives in the backend health
engine, which is absent from the source tree; the specification sets the
noise threshold ε to 0.02. -/
def epsilon : ℚ := 0.02

/-- Modelled from the spec: trend direction is `improving` when the 30-day
change exceeds ε, `declining` when it is below −ε, and `stable` otherwise. -/
def trendDirection (change_30d : ℚ) : String :=
  if change_30d > epsilon then "improving"
  else if change_30d < -epsilon then "declining"
  else "stable"

/-- Modelled from the spec: a stored health snapshot, reduced to its age in
days (relative to now) and its overall score. -/
structure Snapshot where
  age_days : ℕ
  overall_score : ℚ

/-- Modelled from the spec: the staleness tolerance of ±3 days around the
30-day lookback point. -/
def stalenessTolerance : ℕ := 3

/-- Modelled from the spec: a snapshot is usable for the 30-day comparison
when its age is within the staleness tolerance of 30 days. -/
def inLookbackWindow (s : Snapshot) : Bool :=
  decide (30 - stalenessTolerance ≤ s.age_days ∧
          s.age_days ≤ 30 + stalenessTolerance)

/-- Distance of a snapshot's age from the 30-day lookback point. -/
def dist30 (s : Snapshot) : ℕ := max (s.age_days - 30) (30 - s.age_days)

/-- Snapshot whose age is closest to 30 days, if any. -/
def closestTo30 : List Snapshot → Option Snapshot
  | [] => none
  | s :: rest =>
    match closestTo30 rest with
    | none => some s
    | some t => if dist30 s ≤ dist30 t then some s else some t

/-- Modelled from the spec: the 30-day change is the current score minus
the score of the snapshot closest to 30 days ago within the staleness
tolerance; it is unavailable when no snapshot falls in that window. -/
def change30d (history : List Snapshot) (current : ℚ) : Option ℚ :=
  match closestTo30 (history.filter inLookbackWindow) with
  | none => none
  | some s => some (current - s.overall_score)

/-- Modelled from the spec: 30-day forecast by linear extrapolation of the
slope of the last three snapshots, clamped to [0,1]; with fewer than two
snapshots the current score is clamped as-is. -/
def forecast30 (history : List Snapshot) (current : ℚ) : ℚ :=
  let recent := (history.reverse.take 3).reverse
  match recent.head?, recent.getLast? with
  | some oldest, some newest =>
    let days : ℚ := (oldest.age_days : ℚ) - (newest.age_days : ℚ)
    let slope := if days = 0 then 0
                 else (newest.overall_score - oldest.overall_score) / days
    min 1 (max 0 (current + 30 * slope))
  | _, _ => min 1 (max 0 current)

/-- Modelled from the spec: the trend result for a customer. -/
structure HealthTrend where
  change_30d : Option ℚ
  trend : String
  forecast_30d : ℚ

/-- Modelled from the spec: the Trend Analyzer computes the optional
30-day change, the direction (with `stable` as the convention when the
change is unavailable) and the clamped forecast. -/
def analyzeTrend (history : List Snapshot) (current : ℚ) : HealthTrend :=
  match change30d history current with
  | none => ⟨none, "stable", forecast30 history current⟩
  | some c => ⟨some c, trendDirection c, forecast30 history current⟩

end SpecModel

/-- Searching for the empty pattern always succeeds. -/
theorem includesAux_nil_pat (hay : List Char) :
    AlertsUI.includesAux [] hay = true := by
  cases hay with
  | nil => rfl
  | cons c rest => rfl

/-- C1: for every overall health score s in [0,1], the risk classifier
assigns `Excellent` on [0.8, 1], `Good` on [0.6, 0.8), `At Risk` on
[0.3, 0.6) and `Critical` on [0, 0.3). -/
theorem getRiskLevel_band_labels (s : ℚ) :
    (0.8 ≤ s ∧ s ≤ 1 → (Analytics.getRiskLevel s).label = "Excellent")
  ∧ (0.6 ≤ s ∧ s < 0.8 → (Analytics.getRiskLevel s).label = "Good")
  ∧ (0.3 ≤ s ∧ s < 0.6 → (Analytics.getRiskLevel s).label = "At Risk")
  ∧ (0 ≤ s ∧ s < 0.3 → (Analytics.getRiskLevel s).label = "Critical") := by
  unfold Analytics.getRiskLevel
  split_ifs with h1 h2 h3 <;>
    refine ⟨fun h => ?_, fun h => ?_, fun h => ?_, fun h => ?_⟩ <;>
    first
      | rfl
      | (obtain ⟨ha, hb⟩ := h; exfalso; simp only [ge_iff_le, not_le] at *; linarith)

/-- Witness for C1 at the concrete score 0.7, which lies in the good band. -/
theorem getRiskLevel_band_labels_witness :
    (Analytics.getRiskLevel 0.7).label = "Good" :=
  (getRiskLevel_band_labels 0.7).2.1 (by norm_num)

/-- C2: the engine's computed health score always lies in the closed
interval [0,1], for every customer input. -/
theorem calculate_health_score_range (c : Engine.Customer) :
    0 ≤ Engine.calculate_health_score c ∧ Engine.calculate_health_score c ≤ 1 := by
  unfold Engine.calculate_health_score
  refine ⟨le_max_left _ _, max_le (by norm_num) ?_⟩
  split_ifs <;> norm_num

/-- C3: the four dashboard bands partition [0,1]: every score in [0,1]
matches exactly one band. -/
theorem healthBands_partition (s : ℚ) (h0 : 0 ≤ s) (h1 : s ≤ 1) :
    (Dashboard.healthBandMatches s).count true = 1 := by
  unfold Dashboard.healthBandMatches
  rcases lt_or_le s 0.3 with h3 | h3
  · rw [show Dashboard.excellentBand s = false from
        decide_eq_false (by push_neg; linarith),
      show Dashboard.goodBand s = false from
        decide_eq_false (by push_neg; intro h6; linarith),
      show Dashboard.atRiskBand s = false from
        decide_eq_false (by push_neg; intro h6; linarith),
      show Dashboard.criticalBand s = true from decide_eq_true h3]
    decide
  · rcases lt_or_le s 0.6 with h6 | h6
    · rw [show Dashboard.excellentBand s = false from
          decide_eq_false (by push_neg; linarith),
        show Dashboard.goodBand s = false from
          decide_eq_false (by push_neg; intro hx; linarith),
        show Dashboard.atRiskBand s = true from decide_eq_true ⟨h3, h6⟩,
        show Dashboard.criticalBand s = false from
          decide_eq_false (by push_neg; linarith)]
      decide
    · rcases lt_or_le s 0.8 with h8 | h8
      · rw [show Dashboard.excellentBand s = false from
            decide_eq_false (by push_neg; linarith),
          show Dashboard.goodBand s = true from decide_eq_true ⟨h6, h8⟩,
          show Dashboard.atRiskBand s = false from
            decide_eq_false (by push_neg; intro hx; linarith),
          show Dashboard.criticalBand s = false from
            decide_eq_false (by push_neg; linarith)]
        decide
      · rw [show Dashboard.excellentBand s = true from decide_eq_true h8,
          show Dashboard.goodBand s = false from
            decide_eq_false (by push_neg; intro hx; linarith),
          show Dashboard.atRiskBand s = false from
            decide_eq_false (by push_neg; intro hx; linarith),
          show Dashboard.criticalBand s = false from
            decide_eq_false (by push_neg; linarith)]
        decide

/-- Witness for C3 at the concrete score 0.45, which lies in the at-risk
band and no other. -/
theorem healthBands_partition_witness :
    (Dashboard.healthBandMatches 0.45).count true = 1 :=
  healthBands_partition 0.45 (by norm_num) (by norm_num)

/-- C4 counterexample: the api severity union has no `high` member, and for
a customer 45 days since last login the engine emits an `engagement_risk`
alert whose severity is not `high` (it is `medium`). -/
theorem engagement_risk_no_high_severity :
    "high" ∉ Api.severityValues
  ∧ (∃ a ∈ Engine.generate_alerts ⟨"Acme Corp", 0.5, 0, 45, 0.5⟩,
      a.type = "engagement_risk")
  ∧ (∀ a ∈ Engine.generate_alerts ⟨"Acme Corp", 0.5, 0, 45, 0.5⟩,
      a.severity ≠ "high") := by
  have key : Engine.generate_alerts ⟨"Acme Corp", 0.5, 0, 45, 0.5⟩ =
      [⟨"engagement_risk", "medium",
        "Acme Corp hasn't logged in for 45 days",
        ["Send check-in email", "Share new feature update"]⟩] := by
    unfold Engine.generate_alerts
    rw [if_neg (by norm_num : ¬ ((0.5 : ℚ) < 0.3)),
        if_pos (by norm_num : (45 : ℕ) > 14)]
    rfl
  refine ⟨by decide, ?_, ?_⟩
  · rw [key]
    exact ⟨_, List.mem_singleton_self _, rfl⟩
  · rw [key]
    intro a ha
    rw [List.mem_singleton.mp ha]
    decide

/-- C4 amended: every alert the engine emits, for every customer, has a
severity from the three-value api union low, medium, critical, and for any
login gap of more than 14 days (gaps over 30 days included) the engine
emits an `engagement_risk` alert of severity `medium`, never `high`. -/
theorem generate_alerts_severity_taxonomy (c : Engine.Customer) :
    (∀ a ∈ Engine.generate_alerts c, a.severity ∈ Api.severityValues)
  ∧ (14 < c.last_login_days →
      ∃ a ∈ Engine.generate_alerts c,
        a.type = "engagement_risk" ∧ a.severity = "medium") := by
  constructor
  · intro a ha
    unfold Engine.generate_alerts at ha
    rcases List.mem_append.mp ha with ha | ha
    · split_ifs at ha with hc
      · rw [List.mem_singleton.mp ha]
        show "critical" ∈ Api.severityValues
        decide
      · exact absurd ha (List.not_mem_nil _)
    · split_ifs at ha with hl
      · rw [List.mem_singleton.mp ha]
        show "medium" ∈ Api.severityValues
        decide
      · exact absurd ha (List.not_mem_nil _)
  · intro h14
    refine ⟨⟨"engagement_risk", "medium",
      c.name ++ " hasn't logged in for " ++
        toString c.last_login_days ++ " days",
      ["Send check-in email", "Share new feature update"]⟩, ?_, rfl, rfl⟩
    unfold Engine.generate_alerts
    refine List.mem_append_right _ ?_
    rw [if_pos h14]
    exact List.mem_singleton_self _

/-- Witness for C4 amended at a concrete customer 45 days since login,
discharging the login-gap hypothesis there. -/
theorem generate_alerts_severity_taxonomy_witness :
    (∀ a ∈ Engine.generate_alerts ⟨"Acme Corp", 0.5, 0, 45, 0.5⟩,
      a.severity ∈ Api.severityValues)
  ∧ (∃ a ∈ Engine.generate_alerts ⟨"Acme Corp", 0.5, 0, 45, 0.5⟩,
      a.type = "engagement_risk" ∧ a.severity = "medium") :=
  ⟨(generate_alerts_severity_taxonomy ⟨"Acme Corp", 0.5, 0, 45, 0.5⟩).1,
   (generate_alerts_severity_taxonomy ⟨"Acme Corp", 0.5, 0, 45, 0.5⟩).2
     (by decide)⟩

/-- C5: whenever the documented alert generator produces an alert, its
urgency equals the value the fixed severity-to-urgency mapping assigns to
the alert's severity (critical to immediate, high to within_24h, otherwise
within_week). -/
theorem generate_alert_urgency_derived (risk_score : ℚ)
    (severity urgency : String)
    (h : ArchDocs.generate_alert risk_score = some (severity, urgency)) :
    urgency = ArchDocs.urgencyFromSeverity severity := by
  unfold ArchDocs.generate_alert at h
  split_ifs at h
  · obtain ⟨h1, h2⟩ := Prod.mk.injEq .. ▸ Option.some.inj h
    subst h1; subst h2; decide
  · obtain ⟨h1, h2⟩ := Prod.mk.injEq .. ▸ Option.some.inj h
    subst h1; subst h2; decide
  · obtain ⟨h1, h2⟩ := Prod.mk.injEq .. ▸ Option.some.inj h
    subst h1; subst h2; decide

/-- Witness for C5 at the concrete risk score 0.9: the generated alert is
critical and its urgency is the mapped value immediate. -/
theorem generate_alert_urgency_derived_witness :
    ArchDocs.generate_alert 0.9 = some ("critical", "immediate")
  ∧ "immediate" = ArchDocs.urgencyFromSeverity "critical" := by
  have e : ArchDocs.generate_alert 0.9 = some ("critical", "immediate") := by
    unfold ArchDocs.generate_alert
    rw [if_pos (by norm_num : (0.9 : ℚ) > 0.8)]
  exact ⟨e, generate_alert_urgency_derived 0.9 "critical" "immediate" e⟩

/-- C6: with ε = 0.02, the trend direction is improving exactly when the
30-day change exceeds ε, declining exactly when it is below −ε, and stable
exactly when it lies in [−ε, ε]; the three cases are mutually exclusive and
exhaustive. -/
theorem trendDirection_trichotomy (c : ℚ) :
    SpecModel.epsilon = 0.02
  ∧ (SpecModel.trendDirection c = "improving" ↔ SpecModel.epsilon < c)
  ∧ (SpecModel.trendDirection c = "declining" ↔ c < -SpecModel.epsilon)
  ∧ (SpecModel.trendDirection c = "stable" ↔
      -SpecModel.epsilon ≤ c ∧ c ≤ SpecModel.epsilon) := by
  have hpos : (0 : ℚ) < SpecModel.epsilon := by norm_num [SpecModel.epsilon]
  refine ⟨rfl, ?_, ?_, ?_⟩ <;> unfold SpecModel.trendDirection <;>
    split_ifs with h1 h2
  · exact ⟨fun _ => h1, fun _ => rfl⟩
  · exact ⟨fun hh => absurd hh (by decide), fun hh => absurd hh h1⟩
  · exact ⟨fun hh => absurd hh (by decide), fun hh => absurd hh h1⟩
  · exact ⟨fun hh => absurd hh (by decide), fun hh => by exfalso; linarith⟩
  · exact ⟨fun _ => h2, fun _ => rfl⟩
  · exact ⟨fun hh => absurd hh (by decide), fun hh => absurd hh h2⟩
  · exact ⟨fun hh => absurd hh (by decide),
      fun hh => absurd hh.2 (not_le.mpr h1)⟩
  · exact ⟨fun hh => absurd hh (by decide),
      fun hh => absurd h2 (not_lt.mpr hh.1)⟩
  · exact ⟨fun _ => ⟨not_lt.mp h2, not_lt.mp h1⟩, fun _ => rfl⟩

/-- C7: when no snapshot of the history lies inside the 30-day lookback
window, the trend analyzer reports the 30-day change as unavailable and the
direction as stable, without failing. -/
theorem analyzeTrend_insufficient_history (history : List SpecModel.Snapshot)
    (current : ℚ)
    (h : ∀ s ∈ history, SpecModel.inLookbackWindow s = false) :
    (SpecModel.analyzeTrend history current).change_30d = none
  ∧ (SpecModel.analyzeTrend history current).trend = "stable" := by
  have hf : history.filter SpecModel.inLookbackWindow = [] :=
    List.filter_eq_nil_iff.mpr (fun a ha => by simp [h a ha])
  unfold SpecModel.analyzeTrend SpecModel.change30d
  rw [hf]
  exact ⟨rfl, rfl⟩

/-- Witness for C7 at a brand-new customer with a single snapshot taken
today, which lies outside the lookback window. -/
theorem analyzeTrend_insufficient_history_witness :
    (SpecModel.analyzeTrend [⟨0, 0.5⟩] 0.4).change_30d = none
  ∧ (SpecModel.analyzeTrend [⟨0, 0.5⟩] 0.4).trend = "stable" :=
  analyzeTrend_insufficient_history [⟨0, 0.5⟩] 0.4 (by decide)

/-- C8: the engine's health score is monotone in its raw inputs: raising
the usage score, lowering the ticket count or lowering the days since last
login never decreases the computed score. -/
theorem calculate_health_score_monotone (c c' : Engine.Customer)
    (hu : c.usage_score ≤ c'.usage_score)
    (ht : c'.support_tickets ≤ c.support_tickets)
    (hd : c'.last_login_days ≤ c.last_login_days) :
    Engine.calculate_health_score c ≤ Engine.calculate_health_score c' := by
  unfold Engine.calculate_health_score
  have h1 : (if c'.usage_score < 0.3 then (0.4 : ℚ)
        else if c'.usage_score < 0.6 then 0.2 else 0)
      ≤ (if c.usage_score < 0.3 then (0.4 : ℚ)
        else if c.usage_score < 0.6 then 0.2 else 0) := by
    split_ifs <;> linarith
  have h2 : (if c'.support_tickets > 5 then (0.3 : ℚ)
        else if c'.support_tickets > 2 then 0.1 else 0)
      ≤ (if c.support_tickets > 5 then (0.3 : ℚ)
        else if c.support_tickets > 2 then 0.1 else 0) := by
    split_ifs <;> linarith
  have h3 : (if c'.last_login_days > 30 then (0.4 : ℚ)
        else if c'.last_login_days > 7 then 0.2 else 0)
      ≤ (if c.last_login_days > 30 then (0.4 : ℚ)
        else if c.last_login_days > 7 then 0.2 else 0) := by
    split_ifs <;> linarith
  exact max_le_max le_rfl (by linarith)

/-- Witness for C8: a customer with low usage, many tickets and a long
login gap scores no higher than one with high usage, no tickets and a
recent login. -/
theorem calculate_health_score_monotone_witness :
    Engine.calculate_health_score ⟨"Acme Corp", 0.2, 6, 45, 0⟩ ≤
      Engine.calculate_health_score ⟨"Acme Corp", 0.7, 0, 1, 0⟩ :=
  calculate_health_score_monotone _ _ (show (0.2 : ℚ) ≤ 0.7 by norm_num)
    (show (0 : ℕ) ≤ 6 by decide) (show (1 : ℕ) ≤ 45 by decide)

/-- C9: alert filtering is a restriction of the identity: the filtered list
is a subsequence of the input, and with an empty search text and both
filters set to `all` the filtered list is the input itself. -/
theorem filteredAlerts_restriction (alerts : List AlertsUI.Alert) :
    (∀ searchText filterSeverity filterType : String,
      List.Sublist
        (AlertsUI.filteredAlerts searchText filterSeverity filterType alerts)
        alerts)
  ∧ AlertsUI.filteredAlerts "" "all" "all" alerts = alerts := by
  constructor
  · intro searchText filterSeverity filterType
    exact List.filter_sublist _
  · apply List.filter_eq_self.mpr
    intro a _
    have h1 : AlertsUI.strIncludes (AlertsUI.strToLower a.customer_name)
        (AlertsUI.strToLower "") = true :=
      includesAux_nil_pat _
    rw [h1]
    rfl

/-- C10: the dashboard's high-risk selection has at most five entries, all
with health score strictly below 0.3, ordered by non-decreasing score. -/
theorem criticalCustomers_spec (customers : List Dashboard.Customer) :
    (Dashboard.criticalCustomers customers).length ≤ 5
  ∧ (∀ c ∈ Dashboard.criticalCustomers customers, c.health_score < 0.3)
  ∧ List.Pairwise (fun a b => a.health_score ≤ b.health_score)
      (Dashboard.criticalCustomers customers) := by
  unfold Dashboard.criticalCustomers
  refine ⟨?_, ?_, ?_⟩
  · rw [List.length_take]
    exact min_le_left _ _
  · intro c hc
    have hc' := List.take_subset _ _ hc
    have hm := List.mem_mergeSort.mp hc'
    exact of_decide_eq_true (List.mem_filter.mp hm).2
  · have hs := @List.sorted_mergeSort _
      (fun a b => decide (a.health_score ≤ b.health_score))
      (fun a b c hab hbc => by
        simp only [decide_eq_true_eq] at *
        exact le_trans hab hbc)
      (fun a b => by
        simp only [Bool.or_eq_true, decide_eq_true_eq]
        exact le_total _ _)
      (customers.filter (fun c => decide (c.health_score < 0.3)))
    have hp := List.Pairwise.sublist (List.take_sublist 5 _) hs
    exact List.Pairwise.imp (fun h => of_decide_eq_true h) hp
